import Mathlib

/-!
Verification of the Zoho OAuth worker's token manager.

This file gives a shallow embedding of the token-management core of the
worker (`src/src/index.ts`, with a near-duplicate variant in
`src/unnamed/part_000`): the Cloudflare KV token store, the
`getValidAccessToken` cache-or-refresh routine, and the authorization-code
callback `handleCallback`.

Modelling conventions:
* The KV namespace `ZOHO_TOKENS` is a `Store` record of the three keys the
  code reads and writes (`KVNamespace.get` returns `string | null`, hence
  `Option String` fields).
* The single outbound POST a call may make to the provider's token endpoint
  is modelled by passing in the `TokenEndpointResult` that the POST would
  receive; the outcome records how many refresh POSTs were actually issued.
* `Date.now()` within one invocation is modelled as a single instant `now`
  (epoch milliseconds).
* JavaScript truthiness of a `string | null` value (`if (access_token && ...)`)
  is `truthy`: `null` and the empty string are falsy.
* `parseInt(s)` (default radix) is `parseIntJS`, returning `none` for `NaN`;
  the JS comparison `Date.now() < NaN` is false, which `nowLtParsed` encodes.
* `(x).toString()` on the integer millisecond values the worker stores is
  decimal notation, i.e. `Nat.repr`.
-/

namespace ZohoOauth

/-- Numeric value of a decimal digit string (most significant digit first). -/
def digitsToNat (ds : List Char) : Nat :=
  ds.foldl (fun n c => 10 * n + (c.toNat - 48)) 0

/-- Is `c` one of `0-9a-fA-F`? -/
def isHexDigitChar (c : Char) : Bool :=
  c.isDigit || ('a' ≤ c && c ≤ 'f') || ('A' ≤ c && c ≤ 'F')

/-- Numeric value of a single hexadecimal digit. -/
def hexVal (c : Char) : Nat :=
  if c.isDigit then c.toNat - 48
  else if 'a' ≤ c && c ≤ 'f' then c.toNat - 87
  else c.toNat - 55

/-- Numeric value of a hexadecimal digit string (most significant first). -/
def hexDigitsToNat (ds : List Char) : Nat :=
  ds.foldl (fun n c => 16 * n + hexVal c) 0

/-- Parse the longest decimal-digit run at the head of `cs`; `none` when there
is none (JS `parseInt` yields `NaN`). -/
def parseIntDigits (sign : Int) (cs : List Char) : Option Int :=
  let ds := cs.takeWhile Char.isDigit
  if ds.isEmpty then none else some (sign * (digitsToNat ds : Nat))

/-- Parse the longest hexadecimal-digit run at the head of `cs`. -/
def parseIntHex (sign : Int) (cs : List Char) : Option Int :=
  let ds := cs.takeWhile isHexDigitChar
  if ds.isEmpty then none else some (sign * (hexDigitsToNat ds : Nat))

/-- After whitespace and sign: JS `parseInt` with the default radix treats a
`0x`/`0X` head as hexadecimal, otherwise decimal. -/
def parseIntBody (sign : Int) (cs : List Char) : Option Int :=
  match cs with
  | '0' :: c :: rest =>
    if c = 'x' ∨ c = 'X' then parseIntHex sign rest else parseIntDigits sign cs
  | _ => parseIntDigits sign cs

/-- Model of JavaScript `parseInt(s)` with the default radix: skip leading
whitespace, read an optional sign, then the longest digit run; `none` models
`NaN`. -/
def parseIntJS (s : String) : Option Int :=
  match s.data.dropWhile Char.isWhitespace with
  | '-' :: rest => parseIntBody (-1) rest
  | '+' :: rest => parseIntBody 1 rest
  | cs => parseIntBody 1 cs

/-- The `ZOHO_TOKENS` KV namespace, restricted to the three keys the worker
uses. `KVNamespace.get` returns `string | null`. -/
structure Store where
  access_token : Option String
  refresh_token : Option String
  token_expiry : Option String
  deriving Repr, DecidableEq

/-- JavaScript truthiness of a `string | null` value: `null` and `""` are
falsy, every other string is truthy. -/
def truthy : Option String → Bool
  | none => false
  | some s => s != ""

/-- `kv.put('access_token', v)`. -/
def Store.putAccessToken (kv : Store) (v : String) : Store :=
  { kv with access_token := some v }

/-- `kv.put('refresh_token', v)`. -/
def Store.putRefreshToken (kv : Store) (v : String) : Store :=
  { kv with refresh_token := some v }

/-- `kv.put('token_expiry', v)`. -/
def Store.putTokenExpiry (kv : Store) (v : String) : Store :=
  { kv with token_expiry := some v }

/-- The errors the token-management code throws, per the spec's taxonomy:
`throw new Error('No valid tokens available. Please reauthorize.')`,
`throw new Error('Failed to refresh token: ...')` and
`throw new Error('Failed to get tokens: ...')`, each carrying the provider's
status text where the code interpolates one. -/
inductive TokenError where
  | ReauthorizationRequired : TokenError
  | TokenRefreshFailed : String → TokenError
  | AuthorizationExchangeFailed : String → TokenError
  deriving Repr, DecidableEq

/-- The `ZohoTokenResponse` interface: the JSON body of a successful token
endpoint response. -/
structure ZohoTokenResponse where
  access_token : String
  refresh_token : String
  expires_in : Nat
  api_domain : String
  token_type : String
  deriving Repr, DecidableEq

/-- What the outbound POST to `https://{auth_domain}/oauth/v2/token` comes
back with: a parsed success body (`response.ok`), or a non-success HTTP
status with its status text. -/
inductive TokenEndpointResult where
  | ok : ZohoTokenResponse → TokenEndpointResult
  | httpError : Nat → String → TokenEndpointResult
  deriving Repr, DecidableEq

/-- `refreshAccessToken`: on `!response.ok` throw
`Failed to refresh token: ${statusText}`; otherwise return
`tokens.access_token` (the rest of the body, `expires_in` included, is not
read). -/
def refreshAccessToken (response : TokenEndpointResult) : Except TokenError String :=
  match response with
  | .httpError _ statusText => .error (.TokenRefreshFailed statusText)
  | .ok tokens => .ok tokens.access_token

/-- `getInitialTokens`: on `!response.ok` throw
`Failed to get tokens: ${statusText}`; otherwise return the parsed body. -/
def getInitialTokens (response : TokenEndpointResult) : Except TokenError ZohoTokenResponse :=
  match response with
  | .httpError _ statusText => .error (.AuthorizationExchangeFailed statusText)
  | .ok tokens => .ok tokens

/-- `Date.now() < parseInt(e)`: any comparison against `NaN` is false. -/
def nowLtParsed (now : Nat) (e : String) : Bool :=
  match parseIntJS e with
  | none => false
  | some t => (now : Int) < t

/-- The guard of the fast-return branch:
`access_token && token_expiry && Date.now() < parseInt(token_expiry)`.
The `getD ""` stands for the non-null use of `token_expiry` inside the
guard; it is only reached when `token_expiry` is truthy, and
`parseIntJS "" = none` anyway. -/
def tokenStillValid (kv : Store) (now : Nat) : Bool :=
  truthy kv.access_token && truthy kv.token_expiry &&
    nowLtParsed now (kv.token_expiry.getD "")

deriving instance DecidableEq for Except

/-- Everything one call of `getValidAccessToken` produces: the value returned
or error thrown, the KV store afterwards, and how many refresh POSTs were
issued. -/
structure KVOutcome where
  result : Except TokenError String
  kv : Store
  refreshCalls : Nat
  deriving Repr, DecidableEq

/-- `getValidAccessToken(kv, env)`: read the three keys; if the cached token
is still valid return it; otherwise, if `refresh_token` is truthy, POST one
refresh, store the new token with a fixed one-hour expiry
(`Date.now() + 3600 * 1000`), and return it (a thrown refresh failure
propagates before any `put`); otherwise throw the reauthorization error. -/
def getValidAccessToken (kv : Store) (now : Nat) (response : TokenEndpointResult) :
    KVOutcome :=
  if tokenStillValid kv now then
    { result := .ok (kv.access_token.getD ""), kv := kv, refreshCalls := 0 }
  else if truthy kv.refresh_token then
    match refreshAccessToken response with
    | .error e => { result := .error e, kv := kv, refreshCalls := 1 }
    | .ok newToken =>
      { result := .ok newToken
        kv := (kv.putAccessToken newToken).putTokenExpiry (Nat.repr (now + 3600 * 1000))
        refreshCalls := 1 }
  else
    { result := .error .ReauthorizationRequired, kv := kv, refreshCalls := 0 }

/-- The token-persistence core of `handleCallback` (the spec's
`exchangeAuthorizationCode`): exchange the code via `getInitialTokens`, then
store `access_token`, `refresh_token` and
`token_expiry = (Date.now() + expires_in * 1000).toString()`. -/
def handleCallback (kv : Store) (now : Nat) (response : TokenEndpointResult) :
    Except TokenError Store :=
  match getInitialTokens response with
  | .error e => .error e
  | .ok tokens =>
    .ok (((kv.putAccessToken tokens.access_token).putRefreshToken
      tokens.refresh_token).putTokenExpiry (Nat.repr (now + tokens.expires_in * 1000)))

/-! Helper development: the decimal string the worker writes for
`token_expiry` (`Nat.repr`, i.e. `(x).toString()` on the millisecond value)
parses back to the same number under `parseIntJS`. -/

/-- The decimal digit list of `n`, most significant digit first; this is what
`Nat.toDigits 10` computes with its fuel removed. -/
def reprDigits (n : Nat) : List Char :=
  if n < 10 then [Nat.digitChar n]
  else reprDigits (n / 10) ++ [Nat.digitChar (n % 10)]
decreasing_by exact Nat.div_lt_self (by omega) (by omega)

theorem digitChar_isDigit {m : Nat} (h : m < 10) : (Nat.digitChar m).isDigit = true := by
  interval_cases m <;> decide

theorem digitChar_toNat {m : Nat} (h : m < 10) : (Nat.digitChar m).toNat - 48 = m := by
  interval_cases m <;> decide

theorem isDigit_not_ws {c : Char} (h : c.isDigit = true) : c.isWhitespace = false := by
  cases hw : c.isWhitespace with
  | false => rfl
  | true =>
    exfalso
    simp only [Char.isWhitespace, Bool.or_eq_true, decide_eq_true_eq] at hw
    rcases hw with ((rfl | rfl) | rfl) | rfl <;> exact absurd h (by decide)

theorem isDigit_ne {c d : Char} (h : c.isDigit = true) (hd : d.isDigit = false) : c ≠ d := by
  intro h'
  rw [h', hd] at h
  exact Bool.noConfusion h

theorem digitsToNat_append (ds : List Char) (c : Char) :
    digitsToNat (ds ++ [c]) = 10 * digitsToNat ds + (c.toNat - 48) := by
  unfold digitsToNat
  rw [List.foldl_append]
  rfl

theorem digitsToNat_singleton (c : Char) : digitsToNat [c] = c.toNat - 48 := by
  unfold digitsToNat
  simp [List.foldl]

theorem reprDigits_isDigit (n : Nat) : ∀ c ∈ reprDigits n, c.isDigit = true := by
  induction n using Nat.strong_induction_on with
  | _ n ih =>
    rw [reprDigits]
    split
    · next h =>
      intro c hc
      rw [List.mem_singleton] at hc
      subst hc
      exact digitChar_isDigit h
    · next h =>
      intro c hc
      rcases List.mem_append.mp hc with hc | hc
      · exact ih (n / 10) (Nat.div_lt_self (by omega) (by omega)) c hc
      · rw [List.mem_singleton] at hc
        subst hc
        exact digitChar_isDigit (Nat.mod_lt _ (by omega))

theorem reprDigits_ne_nil (n : Nat) : reprDigits n ≠ [] := by
  rw [reprDigits]
  split <;> simp

theorem digitsToNat_reprDigits (n : Nat) : digitsToNat (reprDigits n) = n := by
  induction n using Nat.strong_induction_on with
  | _ n ih =>
    rw [reprDigits]
    split
    · next h =>
      rw [digitsToNat_singleton, digitChar_toNat h]
    · next h =>
      rw [digitsToNat_append, ih (n / 10) (Nat.div_lt_self (by omega) (by omega)),
        digitChar_toNat (Nat.mod_lt _ (by omega))]
      omega

theorem toDigitsCore_eq (fuel : Nat) : ∀ (n : Nat) (acc : List Char), n < fuel →
    Nat.toDigitsCore 10 fuel n acc = reprDigits n ++ acc := by
  induction fuel with
  | zero => omega
  | succ fuel ih =>
    intro n acc h
    rw [Nat.toDigitsCore]
    split
    · next h0 =>
      have hn : n < 10 := by
        rcases Nat.lt_or_ge n 10 with h10 | h10
        · exact h10
        · exact absurd h0 (by
            have := Nat.div_le_div_right (c := 10) h10
            omega)
      rw [reprDigits, if_pos hn, Nat.mod_eq_of_lt hn]
      rfl
    · next h0 =>
      have hge : 10 ≤ n := by
        rcases Nat.lt_or_ge n 10 with h10 | h10
        · exact absurd (Nat.div_eq_of_lt h10) h0
        · exact h10
      have hlt : n / 10 < n := Nat.div_lt_self (by omega) (by omega)
      rw [ih (n / 10) (Nat.digitChar (n % 10) :: acc) (by omega)]
      have hrepr : reprDigits n = reprDigits (n / 10) ++ [Nat.digitChar (n % 10)] := by
        conv_lhs => rw [reprDigits]
        rw [if_neg (by omega)]
      rw [hrepr]
      simp

theorem repr_data (n : Nat) : (Nat.repr n).data = reprDigits n := by
  show (Nat.toDigits 10 n).asString.data = reprDigits n
  unfold Nat.toDigits
  rw [toDigitsCore_eq (n + 1) n [] (Nat.lt_succ_self n)]
  simp [List.asString]

theorem parseIntJS_of_data (s : String) (hne : s.data ≠ [])
    (hd : ∀ c ∈ s.data, c.isDigit = true) :
    parseIntJS s = some (digitsToNat s.data : Int) := by
  unfold parseIntJS
  obtain ⟨c, cs, hcons⟩ := List.exists_cons_of_ne_nil hne
  rw [hcons] at hd ⊢
  have hc : c.isDigit = true := hd c (List.mem_cons_self c cs)
  rw [List.dropWhile_cons_of_neg (by rw [isDigit_not_ws hc]; exact Bool.false_ne_true)]
  have hbody : parseIntBody 1 (c :: cs) = some (digitsToNat (c :: cs) : Int) := by
    have hdigits : parseIntDigits 1 (c :: cs) = some (digitsToNat (c :: cs) : Int) := by
      unfold parseIntDigits
      rw [List.takeWhile_eq_self_iff.mpr hd]
      simp
    unfold parseIntBody
    split
    · next c2 rest heq =>
      obtain ⟨rfl, rfl⟩ : c = '0' ∧ cs = c2 :: rest := by
        injection heq with h1 h2
        exact ⟨h1, h2⟩
      have hc2 : c2.isDigit = true := hd c2 (by simp)
      rw [if_neg]
      · exact hdigits
      · rintro (rfl | rfl) <;> exact absurd hc2 (by decide)
    · next => exact hdigits
  split
  · next rest heq =>
    exfalso
    simp only [List.cons.injEq] at heq
    exact isDigit_ne hc (by decide) heq.1
  · next rest heq =>
    exfalso
    simp only [List.cons.injEq] at heq
    exact isDigit_ne hc (by decide) heq.1
  · next => exact hbody

theorem parseIntJS_repr (n : Nat) : parseIntJS (Nat.repr n) = some (n : Int) := by
  rw [parseIntJS_of_data (Nat.repr n)
    (by rw [repr_data]; exact reprDigits_ne_nil n)
    (by rw [repr_data]; exact reprDigits_isDigit n)]
  rw [repr_data, digitsToNat_reprDigits]

theorem repr_ne_empty (n : Nat) : Nat.repr n ≠ "" := by
  intro h
  have hdata : (Nat.repr n).data = [] := by rw [h]
  rw [repr_data] at hdata
  exact reprDigits_ne_nil n hdata

theorem truthy_some {s : String} : truthy (some s) = true ↔ s ≠ "" := by
  simp [truthy]

/-! Helper lemmas about the validity guard and the branches of
`getValidAccessToken`. -/

theorem parseIntJS_empty : parseIntJS "" = none := rfl

theorem parseInt_some_ne_empty {e : String} {t : Int} (h : parseIntJS e = some t) :
    e ≠ "" := by
  intro h'
  rw [h', parseIntJS_empty] at h
  exact Option.noConfusion h

theorem nowLtParsed_true {now : Nat} {e : String} {t : Int} (hp : parseIntJS e = some t)
    (hlt : (now : Int) < t) : nowLtParsed now e = true := by
  unfold nowLtParsed
  rw [hp]
  simpa using hlt

theorem nowLtParsed_false_of_le {now : Nat} {e : String} {t : Int} (hp : parseIntJS e = some t)
    (hle : t ≤ (now : Int)) : nowLtParsed now e = false := by
  unfold nowLtParsed
  rw [hp]
  simpa using hle

theorem nowLtParsed_false_of_nan {now : Nat} {e : String} (hp : parseIntJS e = none) :
    nowLtParsed now e = false := by
  unfold nowLtParsed
  rw [hp]

theorem tokenStillValid_true {kv : Store} {now : Nat} {a e : String} {t : Int}
    (ha : kv.access_token = some a) (hne : a ≠ "") (he : kv.token_expiry = some e)
    (hp : parseIntJS e = some t) (hlt : (now : Int) < t) :
    tokenStillValid kv now = true := by
  unfold tokenStillValid
  rw [ha, he]
  simp [truthy, hne, parseInt_some_ne_empty hp, nowLtParsed_true hp hlt]

theorem tokenStillValid_false_of_expired {kv : Store} {now : Nat} {e : String} {t : Int}
    (he : kv.token_expiry = some e) (hp : parseIntJS e = some t) (hle : t ≤ (now : Int)) :
    tokenStillValid kv now = false := by
  unfold tokenStillValid
  rw [he]
  simp [nowLtParsed_false_of_le hp hle]

theorem tokenStillValid_false_of_no_access {kv : Store} {now : Nat}
    (ha : kv.access_token = none) : tokenStillValid kv now = false := by
  unfold tokenStillValid
  rw [ha]
  simp [truthy]

theorem tokenStillValid_false_of_no_expiry {kv : Store} {now : Nat}
    (he : kv.token_expiry = none) : tokenStillValid kv now = false := by
  unfold tokenStillValid
  rw [he]
  simp [truthy]

theorem tokenStillValid_false_of_nan {kv : Store} {now : Nat} {e : String}
    (he : kv.token_expiry = some e) (hp : parseIntJS e = none) :
    tokenStillValid kv now = false := by
  unfold tokenStillValid
  rw [he]
  simp [nowLtParsed_false_of_nan hp]

theorem getValid_of_valid {kv : Store} {now : Nat} {a : String} (resp : TokenEndpointResult)
    (hv : tokenStillValid kv now = true) (ha : kv.access_token = some a) :
    getValidAccessToken kv now resp = ⟨.ok a, kv, 0⟩ := by
  unfold getValidAccessToken
  rw [if_pos hv, ha]
  rfl

theorem getValid_refresh_ok {kv : Store} {now : Nat} (tokens : ZohoTokenResponse)
    (hv : tokenStillValid kv now = false) (hr : truthy kv.refresh_token = true) :
    getValidAccessToken kv now (.ok tokens) =
      ⟨.ok tokens.access_token,
       { kv with access_token := some tokens.access_token,
                 token_expiry := some (Nat.repr (now + 3600 * 1000)) }, 1⟩ := by
  unfold getValidAccessToken
  rw [hv, hr]
  simp [refreshAccessToken, Store.putAccessToken, Store.putTokenExpiry]

theorem getValid_refresh_fail {kv : Store} {now : Nat} (status : Nat) (statusText : String)
    (hv : tokenStillValid kv now = false) (hr : truthy kv.refresh_token = true) :
    getValidAccessToken kv now (.httpError status statusText) =
      ⟨.error (.TokenRefreshFailed statusText), kv, 1⟩ := by
  unfold getValidAccessToken
  rw [hv, hr]
  simp [refreshAccessToken]

theorem getValid_reauth {kv : Store} {now : Nat} (resp : TokenEndpointResult)
    (hv : tokenStillValid kv now = false) (hr : truthy kv.refresh_token = false) :
    getValidAccessToken kv now resp = ⟨.error .ReauthorizationRequired, kv, 0⟩ := by
  unfold getValidAccessToken
  rw [hv, hr]
  simp

/-! The claims. -/

/-- C1 counterexample: the empty string is a present `access_token` value,
and with `token_expiry = "99"` and current time `0` the claim's hypotheses
hold, yet `getValidAccessToken` does not return the stored `access_token`:
JavaScript truthiness treats `""` as absent, so the call falls through and
throws the reauthorization error. -/
theorem C1_counterexample :
    (⟨some "", none, some "99"⟩ : Store).access_token = some "" ∧
    (⟨some "", none, some "99"⟩ : Store).token_expiry = some "99" ∧
    parseIntJS "99" = some 99 ∧ ((0 : Nat) : Int) < 99 ∧
    getValidAccessToken ⟨some "", none, some "99"⟩ 0 (.httpError 401 "Unauthorized") =
      ⟨.error .ReauthorizationRequired, ⟨some "", none, some "99"⟩, 0⟩ ∧
    (Except.error TokenError.ReauthorizationRequired : Except TokenError String) ≠
      .ok "" := by
  refine ⟨rfl, rfl, by decide, by decide, by decide, by decide⟩

/-- C1 (amended): for every store state in which `access_token` is present
and non-empty, `token_expiry` is present, and the current time is strictly
below the parsed `token_expiry`, `getValidAccessToken` returns the stored
`access_token`, issues no refresh POST, and performs no store write. -/
theorem C1_valid_token_fast_path (kv : Store) (now : Nat) (resp : TokenEndpointResult)
    (a e : String) (t : Int) (ha : kv.access_token = some a) (hne : a ≠ "")
    (he : kv.token_expiry = some e) (hp : parseIntJS e = some t)
    (hlt : (now : Int) < t) :
    getValidAccessToken kv now resp = ⟨.ok a, kv, 0⟩ :=
  getValid_of_valid resp (tokenStillValid_true ha hne he hp hlt) ha

theorem C1_witness :
    getValidAccessToken ⟨some "A1", some "R1", some "999"⟩ 5 (.httpError 401 "u") =
      ⟨.ok "A1", ⟨some "A1", some "R1", some "999"⟩, 0⟩ :=
  C1_valid_token_fast_path _ 5 _ "A1" "999" 999 rfl (by decide) rfl (by decide) (by decide)

/-- C2 counterexample: `refresh_token = ""` is a present value, and with
`token_expiry = "0"` parsed to `0 ≤ 5` the claim's hypotheses hold, yet the
call issues zero refresh POSTs instead of exactly one: the falsy empty
string sends it to the reauthorization error. -/
theorem C2_counterexample :
    (⟨none, some "", some "0"⟩ : Store).refresh_token = some "" ∧
    parseIntJS "0" = some 0 ∧ (0 : Int) ≤ ((5 : Nat) : Int) ∧
    (getValidAccessToken ⟨none, some "", some "0"⟩ 5
        (.ok ⟨"A2", "R2", 3600, "desk.zoho.com", "Bearer"⟩)).refreshCalls = 0 := by
  refine ⟨rfl, by decide, by decide, by decide⟩

/-- C2 (amended): for every store state whose parsed `token_expiry` is at or
before the current time and whose `refresh_token` is present and non-empty,
`getValidAccessToken` issues exactly one refresh POST whatever the provider
answers, and on a success response the store afterward holds the provider's
new `access_token` and a `token_expiry` that parses to
`now + 3600 * 1000 > now`, with the new token returned to the caller. -/
theorem C2_expired_triggers_refresh (kv : Store) (now : Nat) (e r : String) (t : Int)
    (tokens : ZohoTokenResponse) (he : kv.token_expiry = some e)
    (hp : parseIntJS e = some t) (hle : t ≤ (now : Int))
    (hr : kv.refresh_token = some r) (hrne : r ≠ "") :
    (∀ resp, (getValidAccessToken kv now resp).refreshCalls = 1) ∧
    getValidAccessToken kv now (.ok tokens) =
      ⟨.ok tokens.access_token,
       { kv with access_token := some tokens.access_token,
                 token_expiry := some (Nat.repr (now + 3600 * 1000)) }, 1⟩ ∧
    parseIntJS (Nat.repr (now + 3600 * 1000)) = some ((now + 3600 * 1000 : Nat) : Int) ∧
    now < now + 3600 * 1000 := by
  have hv : tokenStillValid kv now = false := tokenStillValid_false_of_expired he hp hle
  have htr : truthy kv.refresh_token = true := by rw [hr]; exact truthy_some.mpr hrne
  refine ⟨?_, getValid_refresh_ok tokens hv htr, parseIntJS_repr _, by omega⟩
  intro resp
  cases resp with
  | ok tk => rw [getValid_refresh_ok tk hv htr]
  | httpError st tx => rw [getValid_refresh_fail st tx hv htr]

theorem C2_witness :
    (∀ resp, (getValidAccessToken ⟨some "A1", some "R1", some "0"⟩ 5 resp).refreshCalls = 1) ∧
    getValidAccessToken ⟨some "A1", some "R1", some "0"⟩ 5
        (.ok ⟨"A2", "R2", 3600, "desk.zoho.com", "Bearer"⟩) =
      ⟨.ok "A2", ⟨some "A2", some "R1", some (Nat.repr (5 + 3600 * 1000))⟩, 1⟩ ∧
    parseIntJS (Nat.repr (5 + 3600 * 1000)) = some ((5 + 3600 * 1000 : Nat) : Int) ∧
    5 < 5 + 3600 * 1000 :=
  C2_expired_triggers_refresh _ 5 "0" "R1" 0 _ rfl (by decide) (by decide) rfl (by decide)

/-- C3 counterexample: the provider's refresh response carries
`expires_in = 7200`, yet the expiry written to the store is
`now + 3600 * 1000`, not `now + 7200 * 1000`: the refresh path never reads
the returned `expires_in`. -/
theorem C3_counterexample :
    (getValidAccessToken ⟨some "A1", some "R1", some "0"⟩ 5
        (.ok ⟨"A2", "R2", 7200, "desk.zoho.com", "Bearer"⟩)).kv.token_expiry =
      some (Nat.repr (5 + 3600 * 1000)) ∧
    some (Nat.repr (5 + 3600 * 1000)) ≠ some (Nat.repr (5 + 7200 * 1000)) := by
  refine ⟨by decide, by decide⟩

/-- C3 (amended): on every successful refresh inside `getValidAccessToken`
the expiry written to the store is the fixed `now + 3600 * 1000`
milliseconds, regardless of which `expires_in` the provider returned; the
refresh response's `expires_in` is never consulted. -/
theorem C3_refresh_expiry_fixed (kv : Store) (now : Nat) (tokens : ZohoTokenResponse)
    (hv : tokenStillValid kv now = false) (hr : truthy kv.refresh_token = true) :
    (getValidAccessToken kv now (.ok tokens)).kv.token_expiry =
      some (Nat.repr (now + 3600 * 1000)) := by
  rw [getValid_refresh_ok tokens hv hr]

theorem C3_witness :
    (getValidAccessToken ⟨some "A1", some "R1", some "0"⟩ 9
        (.ok ⟨"A2", "R2", 7200, "desk.zoho.com", "Bearer"⟩)).kv.token_expiry =
      some (Nat.repr (9 + 3600 * 1000)) :=
  C3_refresh_expiry_fixed _ 9 _ (by decide) (by decide)

/-- C4 counterexample: `refresh_token = ""` is a present value and the
access token is absent, yet when the refresh POST would return HTTP 401 the
call fails with the reauthorization error, not `TokenRefreshFailed` — no
POST is even issued, because the empty string is falsy. -/
theorem C4_counterexample :
    (⟨none, some "", some "0"⟩ : Store).access_token = none ∧
    (⟨none, some "", some "0"⟩ : Store).refresh_token = some "" ∧
    getValidAccessToken ⟨none, some "", some "0"⟩ 5 (.httpError 401 "Unauthorized") =
      ⟨.error .ReauthorizationRequired, ⟨none, some "", some "0"⟩, 0⟩ ∧
    (Except.error TokenError.ReauthorizationRequired : Except TokenError String) ≠
      .error (.TokenRefreshFailed "Unauthorized") := by
  refine ⟨rfl, rfl, by decide, by decide⟩

/-- C4 (amended): for every store state that fails the validity guard and
holds a present, non-empty `refresh_token`, a refresh POST answered with a
non-success HTTP status makes `getValidAccessToken` fail with
`TokenRefreshFailed` carrying the provider's status text, with exactly one
POST issued and the store left byte-for-byte unmodified. -/
theorem C4_refresh_failure_leaves_store (kv : Store) (now : Nat) (status : Nat)
    (statusText r : String) (hv : tokenStillValid kv now = false)
    (hr : kv.refresh_token = some r) (hrne : r ≠ "") :
    getValidAccessToken kv now (.httpError status statusText) =
      ⟨.error (.TokenRefreshFailed statusText), kv, 1⟩ := by
  have htr : truthy kv.refresh_token = true := by rw [hr]; exact truthy_some.mpr hrne
  exact getValid_refresh_fail status statusText hv htr

theorem C4_witness :
    getValidAccessToken ⟨some "A1", some "R1", some "0"⟩ 5 (.httpError 401 "Unauthorized") =
      ⟨.error (.TokenRefreshFailed "Unauthorized"),
       ⟨some "A1", some "R1", some "0"⟩, 1⟩ :=
  C4_refresh_failure_leaves_store _ 5 401 "Unauthorized" "R1" (by decide) rfl (by decide)

/-- C5: on the empty record (no field present) `getValidAccessToken` fails
with the reauthorization error, issues no refresh POST, and writes nothing. -/
theorem C5_empty_record_fails_closed (now : Nat) (resp : TokenEndpointResult) :
    getValidAccessToken ⟨none, none, none⟩ now resp =
      ⟨.error .ReauthorizationRequired, ⟨none, none, none⟩, 0⟩ :=
  getValid_reauth resp (tokenStillValid_false_of_no_access rfl) rfl

/-- C6 counterexample: the provider's exchange response may carry an empty
`access_token`; `handleCallback` persists all three fields as the claim
says, but the immediately subsequent `getValidAccessToken` does not return
the stored token without refreshing — the falsy empty string sends it to
the refresh path (one POST issued). -/
theorem C6_counterexample :
    handleCallback ⟨none, none, none⟩ 0
        (.ok ⟨"", "R1", 3600, "desk.zoho.com", "Bearer"⟩) =
      .ok ⟨some "", some "R1", some (Nat.repr (0 + 3600 * 1000))⟩ ∧
    (getValidAccessToken ⟨some "", some "R1", some (Nat.repr (0 + 3600 * 1000))⟩ 0
        (.httpError 401 "Unauthorized")).refreshCalls = 1 := by
  refine ⟨by decide, by decide⟩

/-- C6 (amended): when the exchange succeeds and the provider returns a
non-empty `access_token`, a `refresh_token` and `expires_in > 0`,
`handleCallback` persists all three fields with
`token_expiry = now + expires_in * 1000`, and an immediately subsequent
`getValidAccessToken` returns the newly stored access token with no refresh
POST and no store write. -/
theorem C6_exchange_then_fast_path (kv : Store) (now : Nat) (tokens : ZohoTokenResponse)
    (resp : TokenEndpointResult) (hne : tokens.access_token ≠ "")
    (hpos : 0 < tokens.expires_in) :
    handleCallback kv now (.ok tokens) =
      .ok ⟨some tokens.access_token, some tokens.refresh_token,
           some (Nat.repr (now + tokens.expires_in * 1000))⟩ ∧
    getValidAccessToken
        ⟨some tokens.access_token, some tokens.refresh_token,
         some (Nat.repr (now + tokens.expires_in * 1000))⟩ now resp =
      ⟨.ok tokens.access_token,
       ⟨some tokens.access_token, some tokens.refresh_token,
        some (Nat.repr (now + tokens.expires_in * 1000))⟩, 0⟩ := by
  constructor
  · rfl
  · refine getValid_of_valid resp ?_ rfl
    refine tokenStillValid_true rfl hne rfl (parseIntJS_repr _) ?_
    exact_mod_cast Nat.lt_add_of_pos_right (by omega)

theorem C6_witness :
    handleCallback ⟨none, none, none⟩ 7
        (.ok ⟨"A9", "R9", 3600, "desk.zoho.com", "Bearer"⟩) =
      .ok ⟨some "A9", some "R9", some (Nat.repr (7 + 3600 * 1000))⟩ ∧
    getValidAccessToken
        ⟨some "A9", some "R9", some (Nat.repr (7 + 3600 * 1000))⟩ 7
        (.httpError 401 "u") =
      ⟨.ok "A9", ⟨some "A9", some "R9", some (Nat.repr (7 + 3600 * 1000))⟩, 0⟩ :=
  C6_exchange_then_fast_path _ 7 ⟨"A9", "R9", 3600, "desk.zoho.com", "Bearer"⟩ _
    (by decide) (by decide)

/-- C7 counterexample: on a successful refresh whose response carries a new
`refresh_token` (`"R2"`, different from the stored `"R1"`), the store still
holds `"R1"` afterwards — the stored `refresh_token` is not overwritten even
though the provider issued a new one, refuting the claimed "if and only
if". -/
theorem C7_counterexample :
    (getValidAccessToken ⟨some "A1", some "R1", some "0"⟩ 5
        (.ok ⟨"A2", "R2", 3600, "desk.zoho.com", "Bearer"⟩)).result = .ok "A2" ∧
    (getValidAccessToken ⟨some "A1", some "R1", some "0"⟩ 5
        (.ok ⟨"A2", "R2", 3600, "desk.zoho.com", "Bearer"⟩)).kv.refresh_token =
      some "R1" ∧
    ("R1" : String) ≠ "R2" := by
  refine ⟨by decide, by decide, by decide⟩

/-- C7 (amended): `getValidAccessToken` never writes `refresh_token` — the
stored value survives every execution, even when the provider's refresh
response carries a new one — and a successful refresh writes exactly
`access_token` and `token_expiry` and nothing else. -/
theorem C7_refresh_never_rotates (kv : Store) (now : Nat) (resp : TokenEndpointResult) :
    (getValidAccessToken kv now resp).kv.refresh_token = kv.refresh_token ∧
    (∀ tokens, resp = .ok tokens → tokenStillValid kv now = false →
      truthy kv.refresh_token = true →
      (getValidAccessToken kv now resp).kv =
        { kv with access_token := some tokens.access_token,
                  token_expiry := some (Nat.repr (now + 3600 * 1000)) }) := by
  constructor
  · cases hv : tokenStillValid kv now with
    | true => simp [getValidAccessToken, hv]
    | false =>
      cases hr : truthy kv.refresh_token with
      | false => simp [getValidAccessToken, hv, hr]
      | true =>
        cases resp with
        | ok tk =>
          simp [getValidAccessToken, hv, hr, refreshAccessToken,
            Store.putAccessToken, Store.putTokenExpiry]
        | httpError st tx => simp [getValidAccessToken, hv, hr, refreshAccessToken]
  · rintro tokens rfl hv hr
    rw [getValid_refresh_ok tokens hv hr]

theorem C7_witness :
    (getValidAccessToken ⟨some "A1", some "R1", some "5"⟩ 9
        (.ok ⟨"A3", "R9", 60, "desk.zoho.com", "Bearer"⟩)).kv.refresh_token =
      some "R1" ∧
    (getValidAccessToken ⟨some "A1", some "R1", some "5"⟩ 9
        (.ok ⟨"A3", "R9", 60, "desk.zoho.com", "Bearer"⟩)).kv =
      ⟨some "A3", some "R1", some (Nat.repr (9 + 3600 * 1000))⟩ :=
  ⟨(C7_refresh_never_rotates ⟨some "A1", some "R1", some "5"⟩ 9 _).1,
   (C7_refresh_never_rotates ⟨some "A1", some "R1", some "5"⟩ 9 _).2 _ rfl
     (by decide) (by decide)⟩

/-- C8: the expiry comparison is strict less-than on wall-clock
milliseconds: when the current time equals the parsed `token_expiry`
exactly, the validity guard is false, so the cached token is treated as
expired and the fast-return branch is not taken. -/
theorem C8_exact_expiry_treated_expired (kv : Store) (now : Nat) (e : String)
    (he : kv.token_expiry = some e) (hp : parseIntJS e = some (now : Int)) :
    tokenStillValid kv now = false :=
  tokenStillValid_false_of_expired he hp (le_refl _)

theorem C8_witness :
    tokenStillValid ⟨some "A1", some "R1", some "42"⟩ 42 = false :=
  C8_exact_expiry_treated_expired _ 42 "42" rfl (by decide)

/-- C9 counterexample: a partial record with `access_token` absent,
`token_expiry` present and a present (empty-string) `refresh_token` does
not fall through to a refresh attempt as claimed: the falsy empty string
yields the reauthorization error with zero POSTs. -/
theorem C9_counterexample :
    (⟨none, some "", some "99"⟩ : Store).access_token = none ∧
    (⟨none, some "", some "99"⟩ : Store).refresh_token = some "" ∧
    getValidAccessToken ⟨none, some "", some "99"⟩ 0
        (.ok ⟨"A2", "R2", 3600, "desk.zoho.com", "Bearer"⟩) =
      ⟨.error .ReauthorizationRequired, ⟨none, some "", some "99"⟩, 0⟩ := by
  refine ⟨rfl, rfl, by decide⟩

/-- C9 (amended): on every partial store state — `token_expiry` present but
`access_token` absent, or the reverse — `getValidAccessToken` skips the
fast-return branch and falls through to the refresh attempt when
`refresh_token` is present and non-empty (truthy), or to the
reauthorization failure otherwise; partial records never make the guard
succeed. -/
theorem C9_partial_record_falls_through (kv : Store) (now : Nat)
    (resp : TokenEndpointResult)
    (h : kv.access_token = none ∨ kv.token_expiry = none) :
    tokenStillValid kv now = false ∧
    (truthy kv.refresh_token = true →
      (getValidAccessToken kv now resp).refreshCalls = 1) ∧
    (truthy kv.refresh_token = false →
      getValidAccessToken kv now resp = ⟨.error .ReauthorizationRequired, kv, 0⟩) := by
  have hv : tokenStillValid kv now = false := by
    rcases h with ha | he
    · exact tokenStillValid_false_of_no_access ha
    · exact tokenStillValid_false_of_no_expiry he
  refine ⟨hv, ?_, fun hr => getValid_reauth resp hv hr⟩
  intro hr
  cases resp with
  | ok tk => rw [getValid_refresh_ok tk hv hr]
  | httpError st tx => rw [getValid_refresh_fail st tx hv hr]

theorem C9_witness :
    (getValidAccessToken ⟨none, some "R1", some "99"⟩ 0 (.httpError 500 "e")).refreshCalls
      = 1 ∧
    getValidAccessToken ⟨some "A1", none, none⟩ 0 (.httpError 500 "e") =
      ⟨.error .ReauthorizationRequired, ⟨some "A1", none, none⟩, 0⟩ :=
  ⟨(C9_partial_record_falls_through ⟨none, some "R1", some "99"⟩ 0 _ (Or.inl rfl)).2.1
     (by decide),
   (C9_partial_record_falls_through ⟨some "A1", none, none⟩ 0 _ (Or.inr rfl)).2.2
     (by decide)⟩

/-- C10: when `token_expiry` holds a string `parseInt` cannot parse (NaN),
the NaN comparison is false, the validity guard fails, and the call's
result and number of refresh POSTs are exactly those of the same store with
`token_expiry` absent. -/
theorem C10_nan_expiry_conservative (kv : Store) (now : Nat)
    (resp : TokenEndpointResult) (e : String)
    (he : kv.token_expiry = some e) (hp : parseIntJS e = none) :
    tokenStillValid kv now = false ∧
    (getValidAccessToken kv now resp).result =
      (getValidAccessToken { kv with token_expiry := none } now resp).result ∧
    (getValidAccessToken kv now resp).refreshCalls =
      (getValidAccessToken { kv with token_expiry := none } now resp).refreshCalls := by
  have hv : tokenStillValid kv now = false := tokenStillValid_false_of_nan he hp
  have hv' : tokenStillValid { kv with token_expiry := none } now = false :=
    tokenStillValid_false_of_no_expiry rfl
  cases hr : truthy kv.refresh_token with
  | true =>
    cases resp with
    | ok tk =>
      rw [getValid_refresh_ok tk hv hr, getValid_refresh_ok tk hv' hr]
      exact ⟨hv, rfl, rfl⟩
    | httpError st tx =>
      rw [getValid_refresh_fail st tx hv hr, getValid_refresh_fail st tx hv' hr]
      exact ⟨hv, rfl, rfl⟩
  | false =>
    rw [getValid_reauth resp hv hr, getValid_reauth resp hv' hr]
    exact ⟨hv, rfl, rfl⟩

theorem C10_witness :
    tokenStillValid ⟨some "A1", some "R1", some "later"⟩ 0 = false ∧
    (getValidAccessToken ⟨some "A1", some "R1", some "later"⟩ 0
        (.httpError 500 "Server Error")).result =
      (getValidAccessToken ⟨some "A1", some "R1", none⟩ 0
        (.httpError 500 "Server Error")).result ∧
    (getValidAccessToken ⟨some "A1", some "R1", some "later"⟩ 0
        (.httpError 500 "Server Error")).refreshCalls =
      (getValidAccessToken ⟨some "A1", some "R1", none⟩ 0
        (.httpError 500 "Server Error")).refreshCalls :=
  C10_nan_expiry_conservative ⟨some "A1", some "R1", some "later"⟩ 0 _ "later" rfl
    (by decide)

end ZohoOauth
